import Mathlib

/-
Verification of the NotiaBet mobile client's derived-analytics and
resilient-retrieval layer, shallowly embedded from the TypeScript sources:

  - src/mobile-app/src/components/ValueAnalysisCard.tsx  (getImpliedProb)
  - src/mobile-app/src/types/index.ts                    (calculateExpectedValue)
  - src/mobile-app/src/screens/DetailsScreen.tsx         (getBetQuality)
  - src/mobile-app/src/utils/odds.ts                     (americanToDecimal, formatOdds)
  - src/mobile-app/src/services/api.ts                   (ApiService)
  - src/mobile-app/src/components/DateStrip.tsx          (the dates window)

JavaScript numbers are modelled by the exact rationals; American odds fed to
the formatter are modelled as integers, matching the data model (signed
integer American odds).  Math.round x is modelled as the floor of x + 1/2,
which is exactly the JavaScript semantics (round half toward positive
infinity).
-/

-- ============================================================
-- OddsMath: pure numeric helpers
-- ============================================================

/-- Math.round, JavaScript semantics: floor of x + 1/2. -/
def jsRound (q : ℚ) : ℤ :=
  ⌊q + 1/2⌋

/-- Round to two decimal places the way the sources do it:
Math.round (x * 100) / 100. -/
def round2 (q : ℚ) : ℚ :=
  (jsRound (q * 100) : ℚ) / 100

/-- getImpliedProb from ValueAnalysisCard.tsx: American odds to implied
probability percentage; 0 odds yield 0. -/
def getImpliedProb (odds : ℚ) : ℚ :=
  if odds = 0 then 0
  else if odds < 0 then (-odds / (-odds + 100)) * 100
  else (100 / (odds + 100)) * 100

/-- calculateExpectedValue from types/index.ts: 0 when odds are 0, otherwise
the expected value of a unit stake at the decimal conversion of the odds,
rounded to two decimals. -/
def calculateExpectedValue (probability : ℚ) (odds : ℚ) : ℚ :=
  if odds = 0 then 0
  else
    let decimalOdds : ℚ := if 0 < odds then odds / 100 + 1 else 100 / |odds| + 1
    round2 ((probability / 100) * (decimalOdds - 1) - (1 - probability / 100))

/-- The three bet-quality tiers of DetailsScreen.tsx (the source labels them
with the i18n keys excellent_bet, good_bet, risky_bet). -/
inductive BetTier where
  | excellent
  | good
  | risky
deriving DecidableEq, Repr

/-- getBetQuality from DetailsScreen.tsx: conf at least 65 is excellent,
conf at least 55 is good, anything below is risky. -/
def getBetQuality (conf : ℚ) : BetTier :=
  if 65 ≤ conf then BetTier.excellent
  else if 55 ≤ conf then BetTier.good
  else BetTier.risky

/-- The two odds display formats of utils/odds.ts. -/
inductive OddsFormat where
  | AMERICAN
  | DECIMAL
deriving DecidableEq, Repr

/-- americanToDecimal from utils/odds.ts.  The source computes
100 / Math.abs(american) + 1 on the non-positive branch; a 0 input is a
documented precondition violation (callers special-case 0 first). -/
def americanToDecimal (american : ℚ) : ℚ :=
  if 0 < american then american / 100 + 1
  else 100 / |american| + 1

/-- Two-digit zero padding for the fractional part of toFixed(2). -/
def pad2 (n : ℤ) : String :=
  if n < 10 then "0" ++ toString n else toString n

/-- JavaScript Number.toFixed(2) for the non-negative rationals the odds
formatter produces: round to the nearest hundredth and print with exactly
two fractional digits. -/
def toFixed2 (q : ℚ) : String :=
  toString (jsRound (q * 100) / 100) ++ "." ++ pad2 (jsRound (q * 100) % 100)

/-- formatOdds from utils/odds.ts: dash placeholder for 0, decimal odds via
toFixed(2) for DECIMAL, and American rendering with an explicit leading plus
sign on positive values otherwise. -/
def formatOdds (odds : ℤ) (format : OddsFormat) : String :=
  if odds = 0 then "-"
  else if format = OddsFormat.DECIMAL then toFixed2 (americanToDecimal (odds : ℚ))
  else if 0 < odds then "+" ++ toString odds
  else toString odds

-- ============================================================
-- PredictionClient: data model and retrieval, from services/api.ts
-- ============================================================

/-- The Prediction record of types/index.ts.  Probabilities and lines are
rationals, odds are signed integers; the two ISO-8601 timestamp strings are
modelled by the millisecond instants they encode (the mock data builds them
from Date.now() offsets); optional fields are options. -/
structure Prediction where
  home_team : String
  away_team : String
  predicted_winner : String
  home_win_probability : ℚ
  away_win_probability : ℚ
  winner_confidence : ℚ
  under_over_prediction : String
  under_over_line : ℚ
  ou_confidence : ℚ
  home_odds : ℤ
  away_odds : ℤ
  start_time_utc : ℤ
  timestamp : ℤ
  status : Option String
  home_score : Option ℤ
  away_score : Option ℤ
  actual_winner : Option String
  stadium : Option String
deriving DecidableEq, Repr

/-- The PredictionsResponse wrapper of types/index.ts.  The predictions
field is optional because getPredictions guards it with a truthiness check
before reading its length. -/
structure PredictionsResponse where
  count : ℤ
  predictions : Option (List Prediction)
  generated_at : String
deriving DecidableEq, Repr

/-- The HealthResponse record of types/index.ts. -/
structure HealthResponse where
  status : String
  model : String
  timestamp : String
deriving DecidableEq, Repr

/-- RiskAnalysis from services/api.ts. -/
structure RiskAnalysis where
  advisor : String
  message : String
  exposure_rating : String
deriving DecidableEq, Repr

/-- ProposedBet from services/api.ts; the source field named match is
rendered here as matchup because match is reserved. -/
structure ProposedBet where
  prediction_id : String
  date : String
  matchup : String
  selection : String
  odds : ℚ
  stake_amount : ℚ
  status : String
  is_real_bet : Bool
deriving DecidableEq, Repr

/-- StrategyResponse from services/api.ts. -/
structure StrategyResponse where
  strategy : String
  bankroll_used : ℚ
  proposed_bets : List ProposedBet
  risk_analysis : RiskAnalysis
deriving DecidableEq, Repr

/-- MOCK_PREDICTIONS from services/api.ts, parameterised by the
Date.now() instant (milliseconds) at which the module literal is built:
the first entry starts one hour ahead, the second two hours back, the
third thirty minutes ahead. -/
def MOCK_PREDICTIONS (now : ℤ) : List Prediction :=
  [ { home_team := "Los Angeles Lakers"
    , away_team := "Golden State Warriors"
    , predicted_winner := "Los Angeles Lakers"
    , home_win_probability := 58.5
    , away_win_probability := 41.5
    , winner_confidence := 58.5
    , under_over_prediction := "OVER"
    , under_over_line := 228.5
    , ou_confidence := 62.3
    , home_odds := -145
    , away_odds := 125
    , start_time_utc := now + 3600000
    , timestamp := now
    , status := some ("SCHEDULED")
    , home_score := none
    , away_score := none
    , actual_winner := none
    , stadium := none }
  , { home_team := "Boston Celtics"
    , away_team := "Miami Heat"
    , predicted_winner := "Boston Celtics"
    , home_win_probability := 72.1
    , away_win_probability := 27.9
    , winner_confidence := 72.1
    , under_over_prediction := "UNDER"
    , under_over_line := 215.0
    , ou_confidence := 55.8
    , home_odds := -280
    , away_odds := 230
    , start_time_utc := now - 7200000
    , timestamp := now
    , status := some ("FINAL")
    , home_score := some 112
    , away_score := some 108
    , actual_winner := none
    , stadium := none }
  , { home_team := "Denver Nuggets"
    , away_team := "Phoenix Suns"
    , predicted_winner := "Phoenix Suns"
    , home_win_probability := 45.2
    , away_win_probability := 54.8
    , winner_confidence := 54.8
    , under_over_prediction := "OVER"
    , under_over_line := 232.0
    , ou_confidence := 58.4
    , home_odds := 115
    , away_odds := -135
    , start_time_utc := now + 1800000
    , timestamp := now
    , status := some ("LIVE")
    , home_score := some 45
    , away_score := some 48
    , actual_winner := none
    , stadium := none }
  ]

/-- Outcome of the single outbound axios round trip of getPredictions: the
transport either fails (timeout, network or non-2xx, all thrown by axios
and caught by the handler) or succeeds with a parsed response body. -/
inductive FetchOutcome where
  | failure
  | success (resp : PredictionsResponse)
deriving DecidableEq, Repr

/-- ApiService.getPredictions from services/api.ts, with the network round
trip supplied as an explicit outcome and the module-load instant of the
mock literal as mockNow.  Mock mode short-circuits to the mock batch; a
caught transport failure and a success whose predictions list is missing or
empty also yield the mock batch; a success with a non-empty list returns
that list verbatim. -/
def getPredictions (useMock : Bool) (mockNow : ℤ) (outcome : FetchOutcome) :
    List Prediction :=
  if useMock then MOCK_PREDICTIONS mockNow
  else
    match outcome with
    | FetchOutcome.failure => MOCK_PREDICTIONS mockNow
    | FetchOutcome.success resp =>
      match resp.predictions with
      | some ps => if 0 < ps.length then ps else MOCK_PREDICTIONS mockNow
      | none => MOCK_PREDICTIONS mockNow

/-- The default sportsbook argument of ApiService.getPredictions. -/
def defaultSportsbook : String := "fanduel"

/-- The query parameters getPredictions attaches to the outbound request:
params starts as the sportsbook alone and the date is added only when the
date argument is truthy (neither absent, null nor the empty string). -/
def requestParams (date : Option String) (sportsbook : String) :
    List (String × String) :=
  match date with
  | some d =>
    if d = "" then [("sportsbook", sportsbook)]
    else [("sportsbook", sportsbook), ("date", d)]
  | none => [("sportsbook", sportsbook)]

/-- ApiService.checkHealth from services/api.ts: the GET of /health either
throws (any transport or response failure, modelled as the error case) and
is caught to null, or returns the parsed body. -/
def checkHealth (outcome : Except String HealthResponse) :
    Option HealthResponse :=
  match outcome with
  | Except.ok r => some r
  | Except.error _ => none

/-- ApiService.optimizeStrategy from services/api.ts: the POST of the
bankroll either throws and is caught to null, or returns the parsed body;
no local computation touches the result. -/
def optimizeStrategy (bankroll : ℚ)
    (outcome : Except String StrategyResponse) : Option StrategyResponse :=
  match outcome with
  | Except.ok r => some r
  | Except.error _ => none

/-- A concrete well-formed prediction used to exhibit a malformed batch. -/
def samplePrediction : Prediction :=
  { home_team := "Sample Home"
  , away_team := "Sample Away"
  , predicted_winner := "Sample Home"
  , home_win_probability := 60
  , away_win_probability := 40
  , winner_confidence := 60
  , under_over_prediction := "OVER"
  , under_over_line := 200
  , ou_confidence := 50
  , home_odds := -110
  , away_odds := 100
  , start_time_utc := 0
  , timestamp := 0
  , status := some ("SCHEDULED")
  , home_score := none
  , away_score := none
  , actual_winner := none
  , stadium := none }

/-- A malformed response: count 5 but a single-element prediction list. -/
def malformedResponse : PredictionsResponse :=
  { count := 5, predictions := some [samplePrediction], generated_at := "t" }

-- ============================================================
-- TimeBucket: the DateStrip dates window, from components/DateStrip.tsx
-- ============================================================

/-- One entry of the DateStrip dates window.  A DayKey is modelled by its
civil-day index in the reference timezone (America/Bogota, which observes no
daylight saving): distinct civil days render to distinct YYYY-MM-DD strings,
and a selected string that is no valid key corresponds to an index outside
every window.  The localized dayName label and the day-of-month number are
presentation-only and carry no claim content, so they are not modelled. -/
structure DayDescriptor where
  key : ℤ
  active : Bool
  index : ℕ
deriving DecidableEq, Repr

/-- The dates window of DateStrip.tsx: for i from -7 to 2 it pushes the day
today + i with active set exactly when that day's key equals the selected
date, and index i + 7. -/
def dateStripDates (today selectedDate : ℤ) : List DayDescriptor :=
  (List.range 10).map (fun (j : ℕ) =>
    { key := today + (j : ℤ) - 7
    , active := decide (today + (j : ℤ) - 7 = selectedDate)
    , index := j })

-- ============================================================
-- Claim theorems: OddsMath
-- ============================================================

/-- C4: getBetQuality maps every confidence value into exactly one of three
tiers: confidence at least 65 yields excellent, between 55 inclusive and 65
exclusive yields good, below 55 yields risky; in particular 65 is excellent,
64.9 is good and 54.9 is risky. -/
theorem C4_betQuality_tiers (c : ℚ) :
    (65 ≤ c → getBetQuality c = BetTier.excellent) ∧
    (55 ≤ c → c < 65 → getBetQuality c = BetTier.good) ∧
    (c < 55 → getBetQuality c = BetTier.risky) ∧
    getBetQuality 65 = BetTier.excellent ∧
    getBetQuality (64.9 : ℚ) = BetTier.good ∧
    getBetQuality (54.9 : ℚ) = BetTier.risky := by
  refine ⟨?_, ?_, ?_, ?_, ?_, ?_⟩
  · intro h; simp [getBetQuality, h]
  · intro h1 h2
    have : ¬ (65 ≤ c) := by linarith
    simp [getBetQuality, this, h1]
  · intro h
    have h1 : ¬ (65 ≤ c) := by linarith
    have h2 : ¬ (55 ≤ c) := by linarith
    simp [getBetQuality, h1, h2]
  · norm_num [getBetQuality]
  · norm_num [getBetQuality]
  · norm_num [getBetQuality]

/-- C4 witness: the tier bounds discharged at the concrete confidences 70,
60 and 40. -/
theorem C4_betQuality_tiers_witness :
    getBetQuality 70 = BetTier.excellent ∧
    getBetQuality 60 = BetTier.good ∧
    getBetQuality 40 = BetTier.risky :=
  ⟨(C4_betQuality_tiers 70).1 (by norm_num),
   (C4_betQuality_tiers 60).2.1 (by norm_num) (by norm_num),
   (C4_betQuality_tiers 40).2.2.1 (by norm_num)⟩

/-- C5: getImpliedProb computes (-odds)/(-odds+100)*100 for negative odds,
100/(odds+100)*100 for positive odds, and 0 for zero odds; every nonzero
odds value lands strictly between 0 and 100, and the value at -110 is
approximately 52.38. -/
theorem C5_impliedProb_props :
    (∀ o : ℚ, o < 0 → getImpliedProb o = (-o / (-o + 100)) * 100) ∧
    (∀ o : ℚ, 0 < o → getImpliedProb o = (100 / (o + 100)) * 100) ∧
    getImpliedProb 0 = 0 ∧
    (∀ o : ℚ, o ≠ 0 → 0 < getImpliedProb o ∧ getImpliedProb o < 100) ∧
    getImpliedProb (-110) = 1100 / 21 ∧
    |getImpliedProb (-110) - 52.38| < 1 / 100 := by
  have hval : getImpliedProb (-110) = 1100 / 21 := by
    norm_num [getImpliedProb]
  refine ⟨?_, ?_, ?_, ?_, hval, ?_⟩
  · intro o ho
    have hne : o ≠ 0 := ne_of_lt ho
    simp [getImpliedProb, hne, ho]
  · intro o ho
    have hne : o ≠ 0 := ne_of_gt ho
    have hnl : ¬ (o < 0) := not_lt_of_gt ho
    simp [getImpliedProb, hne, hnl]
  · simp [getImpliedProb]
  · intro o ho
    rcases lt_or_gt_of_ne ho with hneg | hpos
    · have h1 : (0 : ℚ) < -o := by linarith
      have h2 : (0 : ℚ) < -o + 100 := by linarith
      have hform : getImpliedProb o = (-o / (-o + 100)) * 100 := by
        simp [getImpliedProb, ho, hneg]
      constructor
      · rw [hform]; positivity
      · rw [hform]
        have hlt : -o / (-o + 100) < 1 := by
          rw [div_lt_one h2]; linarith
        nlinarith
    · have h2 : (0 : ℚ) < o + 100 := by linarith
      have hnl : ¬ (o < 0) := not_lt_of_gt hpos
      have hform : getImpliedProb o = (100 / (o + 100)) * 100 := by
        simp [getImpliedProb, ho, hnl]
      constructor
      · rw [hform]; positivity
      · rw [hform]
        have hlt : (100 : ℚ) / (o + 100) < 1 := by
          rw [div_lt_one h2]; linarith
        nlinarith
  · rw [hval]
    have h : (1100/21 : ℚ) - 52.38 = 1/1050 := by norm_num
    rw [h, abs_of_pos (by norm_num : (0:ℚ) < 1/1050)]
    norm_num

/-- C5 witness: the strict bounds discharged at the concrete odds -110
and 150. -/
theorem C5_impliedProb_props_witness :
    (0 < getImpliedProb (-110) ∧ getImpliedProb (-110) < 100) ∧
    (0 < getImpliedProb 150 ∧ getImpliedProb 150 < 100) :=
  ⟨C5_impliedProb_props.2.2.2.1 (-110) (by norm_num),
   C5_impliedProb_props.2.2.2.1 150 (by norm_num)⟩

/-- C6: calculateExpectedValue returns 0 for every probability when odds are
0; otherwise it equals (p/100)*(d-1) - (1 - p/100) rounded to two decimal
places, where d is odds/100+1 for positive odds and 100/|odds|+1 for
negative odds; at probability 58.5 and odds -145 it evaluates to -0.01. -/
theorem C6_expectedValue_formula (p o : ℚ) :
    calculateExpectedValue p 0 = 0 ∧
    (o ≠ 0 → calculateExpectedValue p o =
      round2 ((p / 100) * ((if 0 < o then o / 100 + 1 else 100 / |o| + 1) - 1)
        - (1 - p / 100))) ∧
    calculateExpectedValue 58.5 (-145) = -1 / 100 := by
  refine ⟨by simp [calculateExpectedValue], ?_, ?_⟩
  · intro ho
    simp [calculateExpectedValue, ho]
  · have hne : (-145 : ℚ) ≠ 0 := by norm_num
    have habs : |(-145 : ℚ)| = 145 := by norm_num
    have harg : ((58.5 : ℚ) / 100) * ((100 / (145 : ℚ) + 1) - 1) - (1 - (58.5 : ℚ) / 100)
        = -67 / 5800 := by norm_num
    have hnp : ¬ ((0 : ℚ) < -145) := by norm_num
    simp only [calculateExpectedValue, if_neg hne, hnp, if_false, habs, harg]
    have hfloor : jsRound ((-67 / 5800 : ℚ) * 100) = -1 := by
      norm_num [jsRound]
    simp [round2, hfloor]

/-- C6 witness: the formula conjunct discharged at probability 50 and
odds -110. -/
theorem C6_expectedValue_formula_witness :
    calculateExpectedValue 50 (-110) =
      round2 ((50 / 100) * ((if (0:ℚ) < -110 then (-110:ℚ) / 100 + 1 else 100 / |(-110:ℚ)| + 1) - 1)
        - (1 - 50 / 100)) :=
  (C6_expectedValue_formula 50 (-110)).2.1 (by norm_num)

/-- C7: formatOdds renders 0 as the dash placeholder in every format; for
nonzero odds the AMERICAN format prepends a plus sign to positive values and
leaves negative values unmodified, and the DECIMAL format renders
americanToDecimal rounded to two decimal places; in particular 150 AMERICAN
is "+150", -200 AMERICAN is "-200", 150 DECIMAL is "2.50". -/
theorem C7_formatOdds_rendering :
    (∀ f : OddsFormat, formatOdds 0 f = "-") ∧
    (∀ o : ℤ, 0 < o → formatOdds o OddsFormat.AMERICAN = "+" ++ toString o) ∧
    (∀ o : ℤ, o < 0 → formatOdds o OddsFormat.AMERICAN = toString o) ∧
    (∀ o : ℤ, o ≠ 0 → formatOdds o OddsFormat.DECIMAL = toFixed2 (americanToDecimal (o : ℚ))) ∧
    formatOdds 150 OddsFormat.AMERICAN = "+150" ∧
    formatOdds (-200) OddsFormat.AMERICAN = "-200" ∧
    formatOdds 150 OddsFormat.DECIMAL = "2.50" := by
  refine ⟨?_, ?_, ?_, ?_, ?_, ?_, ?_⟩
  · intro f; simp [formatOdds]
  · intro o ho
    have hne : o ≠ 0 := by omega
    simp [formatOdds, hne, ho]
  · intro o ho
    have hne : o ≠ 0 := by omega
    have hnp : ¬ (0 < o) := by omega
    simp [formatOdds, hne, hnp]
  · intro o ho
    simp [formatOdds, ho]
  · rfl
  · rfl
  · have hq : americanToDecimal ((150 : ℤ) : ℚ) = 5/2 := by
      norm_num [americanToDecimal]
    have h : jsRound ((5/2 : ℚ) * 100) = 250 := by norm_num [jsRound]
    have hform : formatOdds 150 OddsFormat.DECIMAL
        = toFixed2 (americanToDecimal ((150 : ℤ) : ℚ)) := by
      norm_num [formatOdds]
    rw [hform, hq, toFixed2, h]
    rfl

/-- C7 witness: the conditional renderings discharged at the concrete odds
150, -200 and 150 DECIMAL. -/
theorem C7_formatOdds_rendering_witness :
    formatOdds 150 OddsFormat.AMERICAN = "+" ++ toString (150 : ℤ) ∧
    formatOdds (-200) OddsFormat.AMERICAN = toString (-200 : ℤ) ∧
    formatOdds 150 OddsFormat.DECIMAL = toFixed2 (americanToDecimal ((150 : ℤ) : ℚ)) :=
  ⟨C7_formatOdds_rendering.2.1 150 (by norm_num),
   C7_formatOdds_rendering.2.2.1 (-200) (by norm_num),
   C7_formatOdds_rendering.2.2.2.1 150 (by norm_num)⟩

-- ============================================================
-- Claim theorems: PredictionClient
-- ============================================================

/-- C1: with mock mode off, a transport failure or a success carrying an
empty prediction list makes getPredictions return the fallback batch, which
has exactly 3 predictions whose statuses are SCHEDULED, FINAL and LIVE. -/
theorem C1_fallback_on_failure_or_empty (now : ℤ) (resp : PredictionsResponse) :
    getPredictions false now FetchOutcome.failure = MOCK_PREDICTIONS now ∧
    (resp.predictions = some [] →
      getPredictions false now (FetchOutcome.success resp) = MOCK_PREDICTIONS now) ∧
    (MOCK_PREDICTIONS now).length = 3 ∧
    (MOCK_PREDICTIONS now).map Prediction.status
      = [some ("SCHEDULED"), some ("FINAL"), some ("LIVE")] := by
  refine ⟨rfl, ?_, ?_, ?_⟩
  · intro h
    simp [getPredictions, h]
  · simp [MOCK_PREDICTIONS]
  · simp [MOCK_PREDICTIONS]

/-- C1 witness: the empty-success conjunct discharged at a concrete response
with count 0 and an empty list, at instant 0. -/
theorem C1_fallback_on_failure_or_empty_witness :
    getPredictions false 0
        (FetchOutcome.success { count := 0, predictions := some [], generated_at := "t" })
      = MOCK_PREDICTIONS 0 :=
  (C1_fallback_on_failure_or_empty 0
      { count := 0, predictions := some [], generated_at := "t" }).2.1 rfl

/-- C2 counterexample: the claim that an omitted day key issues the same
request as an explicit todayKey call is false — with the day key omitted the
request carries no date parameter at all, so for the concrete day key
2026-10-11 (a possible todayKey value) the two parameter lists differ, even
though the sportsbook does default to the fanduel constant. -/
theorem C2_counterexample_params_differ :
    requestParams none defaultSportsbook
      ≠ requestParams (some ("2026-10-11")) defaultSportsbook ∧
    defaultSportsbook = "fanduel" := by
  constructor
  · intro h
    have hlen := congrArg List.length h
    simp [requestParams] at hlen
  · rfl

/-- C2 amended: when the day-key argument is omitted (or null, or empty),
getPredictions sends only the sportsbook parameter — no date parameter —
so its request differs from that of an explicit call with any nonempty day
key such as todayKey; the sportsbook defaults to the fixed fanduel
constant. -/
theorem C2_amended_no_date_param_when_omitted (sb tk : String) (h : tk ≠ "") :
    requestParams none sb = [("sportsbook", sb)] ∧
    requestParams (some tk) sb = [("sportsbook", sb), ("date", tk)] ∧
    requestParams (some tk) sb ≠ requestParams none sb ∧
    defaultSportsbook = "fanduel" := by
  refine ⟨rfl, ?_, ?_, rfl⟩
  · simp [requestParams, h]
  · intro hc
    have hlen := congrArg List.length hc
    simp [requestParams, h] at hlen

/-- C2 amended witness: the nonempty-day-key hypothesis discharged at the
concrete key 2026-10-11 and sportsbook fanduel. -/
theorem C2_amended_no_date_param_when_omitted_witness :
    requestParams (some ("2026-10-11")) "fanduel"
      = [("sportsbook", "fanduel"), ("date", "2026-10-11")] :=
  (C2_amended_no_date_param_when_omitted "fanduel" "2026-10-11" (by decide)).2.1

/-- C3 counterexample: a successful response whose count (5) mismatches its
prediction list length (1) is NOT treated like a transport failure —
getPredictions returns the malformed one-element list verbatim instead of
the fallback batch. -/
theorem C3_counterexample_count_ignored :
    malformedResponse.count = 5 ∧
    (malformedResponse.predictions.getD []).length = 1 ∧
    getPredictions false 0 (FetchOutcome.success malformedResponse)
      = [samplePrediction] ∧
    getPredictions false 0 (FetchOutcome.success malformedResponse)
      ≠ MOCK_PREDICTIONS 0 := by
  refine ⟨rfl, rfl, rfl, ?_⟩
  intro h
  have hlen := congrArg List.length h
  simp [getPredictions, malformedResponse, MOCK_PREDICTIONS] at hlen

/-- C3 amended: getPredictions never inspects the count field — a
successful response with a non-empty predictions list is returned verbatim
even when count mismatches the list length, and the fallback batch is
substituted exactly when the predictions list is empty or missing. -/
theorem C3_amended_count_never_checked (now : ℤ) (resp : PredictionsResponse) :
    (∀ ps : List Prediction, resp.predictions = some ps → ps ≠ [] →
      getPredictions false now (FetchOutcome.success resp) = ps) ∧
    ((resp.predictions = some [] ∨ resp.predictions = none) →
      getPredictions false now (FetchOutcome.success resp) = MOCK_PREDICTIONS now) := by
  constructor
  · intro ps hp hne
    have hlen : 0 < ps.length := List.length_pos.mpr hne
    simp [getPredictions, hp, hlen]
  · rintro (h | h) <;> simp [getPredictions, h]

/-- C3 amended witness: the verbatim-return conjunct discharged at the
concrete malformed response with count 5 and one prediction. -/
theorem C3_amended_count_never_checked_witness :
    getPredictions false 0 (FetchOutcome.success malformedResponse)
      = [samplePrediction] :=
  (C3_amended_count_never_checked 0 malformedResponse).1
    [samplePrediction] rfl (by simp)

/-- C9: checkHealth and optimizeStrategy each map any failure to none
rather than raising, and each returns the remote response body unchanged
on success — no fallback and no locally computed data. -/
theorem C9_health_strategy_null_on_failure (e : String) (hr : HealthResponse)
    (b : ℚ) (sr : StrategyResponse) :
    checkHealth (Except.error e) = none ∧
    checkHealth (Except.ok hr) = some hr ∧
    optimizeStrategy b (Except.error e) = none ∧
    optimizeStrategy b (Except.ok sr) = some sr :=
  ⟨rfl, rfl, rfl, rfl⟩

/-- C10: getPredictions never returns an empty list — on every path the
result is either the 3-element fallback batch or the non-empty live list of
a successful response. -/
theorem C10_never_empty (useMock : Bool) (now : ℤ) (outcome : FetchOutcome) :
    getPredictions useMock now outcome ≠ [] ∧
    (getPredictions useMock now outcome = MOCK_PREDICTIONS now ∨
      (∃ resp ps, outcome = FetchOutcome.success resp ∧
        resp.predictions = some ps ∧ ps ≠ [] ∧
        getPredictions useMock now outcome = ps)) := by
  have hmock : MOCK_PREDICTIONS now ≠ [] := by simp [MOCK_PREDICTIONS]
  cases useMock with
  | true => exact ⟨by simp [getPredictions, hmock], Or.inl rfl⟩
  | false =>
    cases outcome with
    | failure => exact ⟨hmock, Or.inl rfl⟩
    | success resp =>
      cases hp : resp.predictions with
      | none =>
        refine ⟨?_, Or.inl ?_⟩ <;> simp [getPredictions, hp, hmock]
      | some ps =>
        cases ps with
        | nil =>
          refine ⟨?_, Or.inl ?_⟩ <;> simp [getPredictions, hp, hmock]
        | cons p rest =>
          have hres : getPredictions false now (FetchOutcome.success resp)
              = p :: rest := by
            simp [getPredictions, hp]
          exact ⟨by simp [hres], Or.inr ⟨resp, p :: rest, rfl, hp, by simp, hres⟩⟩

/-- Count of the range indices whose window day hits a given key: one when
the key lies in the window, zero otherwise. -/
theorem countP_range_window (n : ℕ) (a b : ℤ) :
    (List.range n).countP (fun (j : ℕ) => decide (a + (j : ℤ) - 7 = b)) =
      if a - 7 ≤ b ∧ b < a + (n : ℤ) - 7 then 1 else 0 := by
  induction n with
  | zero =>
    rw [List.range_zero, List.countP_nil, if_neg]
    push_cast
    omega
  | succ n ih =>
    rw [List.range_succ, List.countP_append, ih]
    have hone : (List.countP (fun (j : ℕ) => decide (a + (j : ℤ) - 7 = b)) [n])
        = if a + (n : ℤ) - 7 = b then 1 else 0 := by
      simp [List.countP_cons]
    rw [hone]
    push_cast
    split_ifs <;> omega

/-- C8: for every selected key the dates window has exactly 10 descriptors
covering the 7 days before today through the 2 days after, always contains
today, marks a descriptor active exactly when its key equals the selected
key, and so has exactly one active descriptor when the selected key lies in
the window and none otherwise. -/
theorem C8_dateStrip_window (today sel : ℤ) :
    (dateStripDates today sel).length = 10 ∧
    (∀ d, d ∈ dateStripDates today sel →
      d.key = today + (d.index : ℤ) - 7 ∧ today - 7 ≤ d.key ∧ d.key ≤ today + 2) ∧
    (∃ d, d ∈ dateStripDates today sel ∧ d.key = today) ∧
    (∀ d, d ∈ dateStripDates today sel → (d.active = true ↔ d.key = sel)) ∧
    (today - 7 ≤ sel ∧ sel ≤ today + 2 →
      ((dateStripDates today sel).filter (fun d => d.active)).length = 1) ∧
    (¬ (today - 7 ≤ sel ∧ sel ≤ today + 2) →
      ((dateStripDates today sel).filter (fun d => d.active)).length = 0) := by
  have hcount : ((dateStripDates today sel).filter (fun d => d.active)).length
      = (List.range 10).countP (fun (j : ℕ) => decide (today + (j : ℤ) - 7 = sel)) := by
    rw [dateStripDates, ← List.countP_eq_length_filter, List.countP_map]
    rfl
  have hwin := countP_range_window 10 today sel
  refine ⟨?_, ?_, ?_, ?_, ?_, ?_⟩
  · simp [dateStripDates]
  · intro d hd
    rw [dateStripDates, List.mem_map] at hd
    obtain ⟨j, hj, rfl⟩ := hd
    rw [List.mem_range] at hj
    refine ⟨rfl, ?_, ?_⟩ <;> simp <;> omega
  · refine ⟨_, List.mem_map_of_mem _ (by simp : (7 : ℕ) ∈ List.range 10), ?_⟩
    norm_num
  · intro d hd
    rw [dateStripDates, List.mem_map] at hd
    obtain ⟨j, hj, rfl⟩ := hd
    simp
  · intro hsel
    rw [hcount, hwin, if_pos]
    push_cast
    omega
  · intro hsel
    rw [hcount, hwin, if_neg]
    push_cast
    omega

/-- C8 witness: the window bounds, the active-iff characterisation and the
one-or-zero active counts discharged at today 100 with selected keys 100
(inside the window, via the descriptor for index 0) and 50 (outside). -/
theorem C8_dateStrip_window_witness :
    (({ key := 93, active := false, index := 0 } : DayDescriptor).key
        = 100 + (((0 : ℕ)) : ℤ) - 7
      ∧ 100 - 7 ≤ ({ key := 93, active := false, index := 0 } : DayDescriptor).key
      ∧ ({ key := 93, active := false, index := 0 } : DayDescriptor).key ≤ 100 + 2) ∧
    (({ key := 93, active := false, index := 0 } : DayDescriptor).active = true
      ↔ ({ key := 93, active := false, index := 0 } : DayDescriptor).key = 100) ∧
    ((dateStripDates 100 100).filter (fun d => d.active)).length = 1 ∧
    ((dateStripDates 100 50).filter (fun d => d.active)).length = 0 :=
  ⟨(C8_dateStrip_window 100 100).2.1
      { key := 93, active := false, index := 0 } (by decide),
   (C8_dateStrip_window 100 100).2.2.2.1
      { key := 93, active := false, index := 0 } (by decide),
   (C8_dateStrip_window 100 100).2.2.2.2.1 (by decide),
   (C8_dateStrip_window 100 50).2.2.2.2.2 (by decide)⟩
